import Mathlib

/-
  Verification of the Lumina voice audio generation front-end.

  Shallow embedding of the application logic in src/App.tsx,
  src/geminiService.ts and src/types.ts.  Pure functions of the source
  become Lean functions; the React component state becomes an explicit
  record AppState; each event handler becomes a state transformer that
  also reports the external calls it makes (dictation engine stop,
  synthesis call, audio source start and stop) as a trace.  Asynchronous
  outcomes of the generation pipeline (the synthesis call, the base64
  decode, the audio-buffer decode and playback start) are abstracted by
  a GenOutcome parameter that the handler consumes.
-/

namespace Lumina

/-! ## Data model (src/types.ts) -/

/-- Voice identifiers, from the VoiceName enum of src/types.ts. -/
inductive VoiceName where
  | KORE | PUCK | CHARON | FENRIR | ZEPHYR
deriving DecidableEq, Repr

/-- Accent choices, from the Accent union type of src/types.ts. -/
inductive Accent where
  | Neutral | British | Australian | Indian | SouthernUS | Scottish
deriving DecidableEq, Repr

/-- Playback status record, from the AudioState interface of src/types.ts.
The error field models the string-or-null field of the source. -/
structure AudioState where
  isGenerating : Bool
  isPlaying : Bool
  error : Option String
deriving DecidableEq, Repr

/-! ## Models of the JavaScript string builtins used by the source.

The Lean core string functions do not reduce well inside the kernel, so
the JavaScript builtins trim, endsWith and includes are modelled
explicitly over character lists with the same semantics. -/

/-- Whitespace test for the trim model (space, tab, newline, carriage
return cover every whitespace character the source can meet here). -/
def isWsChar (c : Char) : Bool :=
  c == ' ' || c == '\t' || c == '\n' || c == '\r'

/-- Model of the JavaScript builtin String.prototype.trim. -/
def jsTrim (s : String) : String :=
  String.mk (((s.toList.dropWhile isWsChar).reverse.dropWhile isWsChar).reverse)

/-- Model of the JavaScript builtin String.prototype.endsWith. -/
def jsEndsWith (s suffix : String) : Bool :=
  suffix.toList.isSuffixOf s.toList

/-- Model of the JavaScript builtin String.prototype.includes:
does s contain pat as a contiguous substring. -/
def jsIncludes (s pat : String) : Bool :=
  (List.range (s.toList.length + 1)).any (fun i => pat.toList.isPrefixOf (s.toList.drop i))

/-! ## Synthesis service (src/geminiService.ts) -/

/-- The part of the service response that generateSpeech inspects: the
optional chain response.candidates, first candidate, content, parts,
first part, inlineData, data collapses to one optional string; none
models any absent link of the chain. -/
structure GenResponse where
  inlineData : Option String
deriving DecidableEq, Repr

/-- Result extraction of generateSpeech in src/geminiService.ts lines
41-47: a falsy payload (absent chain link or empty string) raises the
fixed no-audio-data error, otherwise the payload is returned unchanged. -/
def generateSpeech (resp : GenResponse) : Except String String :=
  match resp.inlineData with
  | some d => if d == "" then .error "No audio data received from the model." else .ok d
  | none => .error "No audio data received from the model."

/-! ## Error mapping of the generation catch block (src/App.tsx 182-191) -/

/-- The friendly retry message of the 500 branch. -/
def friendlyRetryMsg : String :=
  "The server encountered an internal error. Please try again with a shorter text or a different accent."

/-- The generic fallback message of the catch block. -/
def genericGenMsg : String :=
  "An error occurred while generating speech."

/-- The user-facing message computed in the catch block of
handleGenerateAndPlay: err.message may be absent (none); an optional
chain on includes 500 selects the friendly message; otherwise the
JavaScript truthiness of err.message selects the message itself or the
generic fallback (an empty message is falsy). -/
def speechGenError (msg : Option String) : String :=
  match msg with
  | some m =>
      if jsIncludes m "500" then friendlyRetryMsg
      else if m == "" then genericGenMsg
      else m
  | none => genericGenMsg

/-! ## Application state (src/App.tsx component state and refs) -/

/-- Abstraction of the exported WAV blob created by
createWavBlob(audioBytes, 24000): it records the base64 payload the
bytes were decoded from and the sample rate passed to the container
builder (the byte-level codec lives in audioUtils, outside src). -/
structure WavBlob where
  sourceBase64 : String
  sampleRate : Nat
deriving DecidableEq, Repr

/-- External calls an activation of a handler performs, in order:
a stop request to the dictation engine (recognition.stop), the
synthesis call (generateSpeech), a stop of the active audio source
(sourceNode.stop) and the start of a new source (source.start). -/
inductive CallEv where
  | dictationStop
  | dictationStart
  | synthCall
  | sourceStop
  | sourceStart
deriving DecidableEq, Repr

/-- Outcome of the awaited generation pipeline inside the try block of
handleGenerateAndPlay: the synthesis call rejects with an optional
message; the base64 decode throws; a step after the blob was stored
(audio-buffer decode or playback start) throws; or everything succeeds
and the visualizer reads a first frequency snapshot. -/
inductive GenOutcome where
  | synthErr (msg : Option String)
  | decodeErr (msg : Option String)
  | laterErr (base64 : String) (msg : Option String)
  | success (base64 : String) (snapshot : List Nat)
deriving DecidableEq, Repr

/-- The component state of src/App.tsx: the useState fields text,
lastAudioBlob, visualData, isListening, status together with the refs
sourceNodeRef and animationFrameRef, and the voice, accent and pace
selections.  recognitionAvailable models whether the speech recognition
constructor existed at mount time (recognitionRef non-null). -/
structure AppState where
  text : String
  selectedVoice : VoiceName
  selectedAccent : Accent
  speakingRate : ℚ
  lastAudioBlob : Option WavBlob
  visualData : List ℚ
  isListening : Bool
  status : AudioState
  sourceNode : Option Unit
  animationFrame : Option Unit
  recognitionAvailable : Bool
deriving DecidableEq, Repr

/-- The default script preloaded into the text area (DEFAULT_STORY). -/
def DEFAULT_STORY : String :=
  "Welcome to Lumina, the next generation of cloud-native infrastructure management. Our platform provides absolute visibility into your distributed microservices, allowing your engineering teams to deploy faster, resolve incidents with precision, and scale with total confidence. From real-time telemetry to automated healing, we\x27ve simplified the complex. Let me show you how Lumina can transform your workflow today."

/-- The component state right after mount, parametric in whether the
speech recognition capability exists in the browser. -/
def initialState (avail : Bool) : AppState where
  text := DEFAULT_STORY
  selectedVoice := .CHARON
  selectedAccent := .Neutral
  speakingRate := 1
  lastAudioBlob := none
  visualData := List.replicate 16 0
  isListening := false
  status := { isGenerating := false, isPlaying := false, error := none }
  sourceNode := none
  animationFrame := none
  recognitionAvailable := avail

/-! ## Handlers (src/App.tsx) -/

/-- stopPlayback (src/App.tsx 97-109): stops and releases the active
source if any (exceptions from stopping swallowed), cancels the pending
visualizer callback, zeroes the visualization frame and clears
isPlaying.  The returned trace holds the source stop request when a
source was active. -/
def stopPlayback (s : AppState) : AppState × List CallEv :=
  ({ s with
      sourceNode := none
      visualData := List.replicate 16 0
      status := { s.status with isPlaying := false } },
   if s.sourceNode.isSome then [CallEv.sourceStop] else [])

/-- One tick of the visualizer update loop (src/App.tsx 118-131): with
dataArray the frequency snapshot of length bufferLength, stride is
floor(bufferLength / 20) and each of 16 buckets accumulates 4 reads
dataArray[i * step + j] with absent reads contributing 0, then divides
by 4. -/
def vizUpdate (dataArray : List Nat) : List ℚ :=
  let step := dataArray.length / 20
  (List.range 16).map (fun i =>
    ((List.range 4).foldl (fun sum j => sum + ((dataArray.getD (i * step + j) 0 : ℕ) : ℚ)) 0) / 4)

/-- toggleListening (src/App.tsx 78-95).  With no recognition engine it
records the unsupported error.  While listening it requests an engine
stop (isListening itself is cleared later by the asynchronous onend
callback).  Otherwise it clears the error and attempts a start; startOk
models whether recognition.start() throws, and only a successful start
sets isListening. -/
def toggleListening (startOk : Bool) (s : AppState) : AppState × List CallEv :=
  if !s.recognitionAvailable then
    ({ s with status := { s.status with error := some "Speech recognition is not supported in this browser." } }, [])
  else if s.isListening then
    (s, [CallEv.dictationStop])
  else
    let s1 := { s with status := { s.status with error := none } }
    if startOk then ({ s1 with isListening := true }, [CallEv.dictationStart])
    else (s1, [CallEv.dictationStart])

/-- The final-transcript accumulation of recognition.onresult
(src/App.tsx 51-57): concatenates the transcripts of the final results
of the event, in order. -/
def collectFinal (results : List (Bool × String)) : String :=
  results.foldl (fun acc r => if r.1 then acc ++ r.2 else acc) ""

/-- The text update of recognition.onresult (src/App.tsx 59-61): a
truthy (non-empty) final transcript is appended to a script whose
trimmed form is truthy with one separating space, replaces a script
whose trimmed form is empty, and an empty final transcript leaves the
script unchanged. -/
def onresultUpdate (finalTranscript prev : String) : String :=
  if finalTranscript == "" then prev
  else if jsTrim prev == "" then finalTranscript
  else prev ++ " " ++ finalTranscript

/-- recognition.onerror (src/App.tsx 64-68): ends the dictation session
and records a microphone error message; the other status fields are
spread through unchanged. -/
def recognitionOnError (code : String) (s : AppState) : AppState :=
  { s with
      isListening := false
      status := { s.status with error := some ("Microphone error: " ++ code) } }

/-- recognition.onend (src/App.tsx 70-72): clears isListening. -/
def recognitionOnEnd (s : AppState) : AppState :=
  { s with isListening := false }

/-- The source.onended callback (src/App.tsx 170-175): clears
isPlaying, zeroes the visualization frame, cancels the pending
visualizer callback and releases the source handle. -/
def sourceOnEnded (s : AppState) : AppState :=
  { s with
      status := { s.status with isPlaying := false }
      visualData := List.replicate 16 0
      sourceNode := none }

/-- The dictation gate at the top of the generation path (src/App.tsx
142): while listening, toggleListening is invoked, which issues the
engine stop. -/
def dictationGate (s : AppState) : AppState × List CallEv :=
  if s.isListening then toggleListening true s else (s, [])

/-- The body of handleGenerateAndPlay from the status reset onward
(src/App.tsx 144-191): status becomes generating, the previous blob is
cleared, then the awaited pipeline either stores the new blob and
starts playback and the visualizer, or lands in the catch block which
records the mapped error; a failure after the blob was stored leaves
the blob in place. -/
def runPipeline (o : GenOutcome) (s : AppState) : AppState × List CallEv :=
  let s1 := { s with
      status := { isGenerating := true, isPlaying := false, error := none }
      lastAudioBlob := none }
  match o with
  | .synthErr msg =>
      ({ s1 with status := { isGenerating := false, isPlaying := false, error := some (speechGenError msg) } },
       [CallEv.synthCall])
  | .decodeErr msg =>
      ({ s1 with status := { isGenerating := false, isPlaying := false, error := some (speechGenError msg) } },
       [CallEv.synthCall])
  | .laterErr base64 msg =>
      ({ s1 with
          lastAudioBlob := some { sourceBase64 := base64, sampleRate := 24000 }
          status := { isGenerating := false, isPlaying := false, error := some (speechGenError msg) } },
       [CallEv.synthCall])
  | .success base64 snapshot =>
      ({ s1 with
          lastAudioBlob := some { sourceBase64 := base64, sampleRate := 24000 }
          sourceNode := some ()
          animationFrame := some ()
          visualData := vizUpdate snapshot
          status := { isGenerating := false, isPlaying := true, error := none } },
       [CallEv.synthCall, CallEv.sourceStart])

/-- handleGenerateAndPlay (src/App.tsx 136-192): while playing it only
stops playback; otherwise it closes the dictation gate and runs the
generation pipeline. -/
def handleGenerateAndPlay (o : GenOutcome) (s : AppState) : AppState × List CallEv :=
  if s.status.isPlaying then stopPlayback s
  else
    let p := dictationGate s
    let q := runPipeline o p.1
    (q.1, p.2 ++ q.2)

/-- A click of the generate button: the button is disabled while
generating or while the trimmed script is empty (src/App.tsx 286), so a
click in those states does nothing; otherwise it fires
handleGenerateAndPlay. -/
def generateClick (o : GenOutcome) (s : AppState) : AppState × List CallEv :=
  if s.status.isGenerating || jsTrim s.text == "" then (s, [])
  else handleGenerateAndPlay o s

/-! ## Event machine over the component state -/

/-- The user and callback events that mutate the component state: a
generate-button click with the pipeline outcome it observes, the
dictation toggle with the start success flag, the recognition onresult,
onerror and onend callbacks, the source onended callback, a text edit
(also clear and restore default), and the voice, accent and pace
selectors, each of which clears the exported blob. -/
inductive Ev where
  | generate (o : GenOutcome)
  | dictToggle (startOk : Bool)
  | dictResult (results : List (Bool × String))
  | dictError (code : String)
  | dictEnd
  | sourceEnded
  | editText (t : String)
  | selectVoice (v : VoiceName)
  | selectAccent (a : Accent)
  | setRate (r : ℚ)

/-- One event step of the application. -/
def step (e : Ev) (s : AppState) : AppState :=
  match e with
  | .generate o => (generateClick o s).1
  | .dictToggle startOk => (toggleListening startOk s).1
  | .dictResult results => { s with text := onresultUpdate (collectFinal results) s.text }
  | .dictError code => recognitionOnError code s
  | .dictEnd => recognitionOnEnd s
  | .sourceEnded => sourceOnEnded s
  | .editText t => { s with text := t, lastAudioBlob := none }
  | .selectVoice v => { s with selectedVoice := v, lastAudioBlob := none }
  | .selectAccent a => { s with selectedAccent := a, lastAudioBlob := none }
  | .setRate r => { s with speakingRate := r, lastAudioBlob := none }

/-- The states the application can be in: the mount state followed by
any sequence of event steps. -/
inductive Reachable : AppState → Prop where
  | init (avail : Bool) : Reachable (initialState avail)
  | step {s : AppState} (e : Ev) : Reachable s → Reachable (step e s)

/-- State invariant: the Generating and Playing phases are mutually
exclusive, and a live dictation session implies the recognition engine
exists. -/
def Inv (s : AppState) : Prop :=
  (s.status.isPlaying = true → s.status.isGenerating = false) ∧
  (s.isListening = true → s.recognitionAvailable = true)

theorem inv_initial (avail : Bool) : Inv (initialState avail) := by
  constructor <;> simp [initialState]

theorem inv_stopPlayback {s : AppState} (h : Inv s) : Inv (stopPlayback s).1 := by
  obtain ⟨h1, h2⟩ := h
  exact ⟨by simp [stopPlayback], by simpa [stopPlayback] using h2⟩

theorem inv_toggleListening {s : AppState} (startOk : Bool) (h : Inv s) :
    Inv (toggleListening startOk s).1 := by
  obtain ⟨h1, h2⟩ := h
  unfold toggleListening
  split
  · exact ⟨h1, h2⟩
  · split
    · exact ⟨h1, h2⟩
    · rename_i hav _
      simp only [Bool.not_eq_true', Bool.not_eq_false] at hav
      split <;> exact ⟨h1, fun _ => hav⟩

theorem inv_runPipeline {s : AppState} (o : GenOutcome) (h : Inv s) :
    Inv (runPipeline o s).1 := by
  obtain ⟨h1, h2⟩ := h
  cases o <;> exact ⟨by simp [runPipeline], fun hl => h2 hl⟩

theorem inv_handleGenerateAndPlay {s : AppState} (o : GenOutcome) (h : Inv s) :
    Inv (handleGenerateAndPlay o s).1 := by
  unfold handleGenerateAndPlay
  split
  · exact inv_stopPlayback h
  · exact inv_runPipeline o (by
      unfold dictationGate
      split
      · exact inv_toggleListening true h
      · exact h)

theorem inv_step (e : Ev) {s : AppState} (h : Inv s) : Inv (step e s) := by
  obtain ⟨h1, h2⟩ := h
  cases e with
  | generate o =>
      show Inv (generateClick o s).1
      unfold generateClick
      split
      · exact ⟨h1, h2⟩
      · exact inv_handleGenerateAndPlay o ⟨h1, h2⟩
  | dictToggle startOk =>
      exact inv_toggleListening startOk ⟨h1, h2⟩
  | dictResult results => exact ⟨h1, h2⟩
  | dictError code =>
      show Inv (recognitionOnError code s)
      exact ⟨h1, by simp [recognitionOnError]⟩
  | dictEnd =>
      show Inv (recognitionOnEnd s)
      exact ⟨h1, by simp [recognitionOnEnd]⟩
  | sourceEnded =>
      show Inv (sourceOnEnded s)
      exact ⟨by simp [sourceOnEnded], h2⟩
  | editText t => exact ⟨h1, h2⟩
  | selectVoice v => exact ⟨h1, h2⟩
  | selectAccent a => exact ⟨h1, h2⟩
  | setRate r => exact ⟨h1, h2⟩

/-- Every reachable state satisfies the invariant. -/
theorem inv_of_reachable {s : AppState} (h : Reachable s) : Inv s := by
  induction h with
  | init avail => exact inv_initial avail
  | step e _ ih => exact inv_step e ih

/-! ## Helper lemmas -/

theorem handleGenerate_not_playing (o : GenOutcome) (s : AppState)
    (hp : s.status.isPlaying = false) :
    handleGenerateAndPlay o s =
      ((runPipeline o (dictationGate s).1).1,
       (dictationGate s).2 ++ (runPipeline o (dictationGate s).1).2) := by
  simp [handleGenerateAndPlay, hp]

theorem dictationGate_listening (s : AppState) (hl : s.isListening = true)
    (hav : s.recognitionAvailable = true) :
    dictationGate s = (s, [CallEv.dictationStop]) := by
  simp [dictationGate, hl, toggleListening, hav]

theorem dictationGate_not_listening (s : AppState) (hl : s.isListening = false) :
    dictationGate s = (s, []) := by
  simp [dictationGate, hl]

theorem runPipeline_trace_head (o : GenOutcome) (s : AppState) :
    ∃ t, (runPipeline o s).2 = CallEv.synthCall :: t := by
  cases o <;> exact ⟨_, rfl⟩

/-! ## Claim theorems -/

/-- C5: the stop operation is idempotent.  For every state, the first
stop call and a second stop call both leave isPlaying false, a released
(none) source handle and an all-zero visualization frame of length 16;
the second call is a complete no-op on the state (and sends no stop
request to an audio source, since the handle is already released).  The
embedding of stopPlayback is a total function, so no call raises an
error. -/
theorem stopPlayback_idempotent (s : AppState) :
    ((stopPlayback s).1.status.isPlaying = false ∧
     (stopPlayback s).1.sourceNode = none ∧
     (stopPlayback s).1.visualData = List.replicate 16 0) ∧
    ((stopPlayback (stopPlayback s).1).1.status.isPlaying = false ∧
     (stopPlayback (stopPlayback s).1).1.sourceNode = none ∧
     (stopPlayback (stopPlayback s).1).1.visualData = List.replicate 16 0) ∧
    (stopPlayback (stopPlayback s).1).1 = (stopPlayback s).1 ∧
    (stopPlayback (stopPlayback s).1).2 = [] := by
  simp [stopPlayback]

/-- C8: a dictation engine error ends only the dictation session and
records a microphone error message; the playback fields isPlaying and
isGenerating are untouched. -/
theorem dictation_error_leaves_playback (s : AppState) (code : String) :
    (recognitionOnError code s).isListening = false ∧
    (recognitionOnError code s).status.error = some ("Microphone error: " ++ code) ∧
    (recognitionOnError code s).status.isPlaying = s.status.isPlaying ∧
    (recognitionOnError code s).status.isGenerating = s.status.isGenerating := by
  simp [recognitionOnError]

/-- C4: a finalized non-empty transcript segment is appended to a
script with non-empty trimmed text with a single separating space (the
source imposes no ends-with check, so in particular this holds whenever
the script does not already end with the segment), and replaces a
script whose trimmed text is empty. -/
theorem dictation_final_append (t seg : String) (hseg : seg ≠ "") :
    (jsTrim t ≠ "" → jsEndsWith t seg = false → onresultUpdate seg t = t ++ " " ++ seg) ∧
    (jsTrim t = "" → onresultUpdate seg t = seg) := by
  constructor
  · intro ht _
    simp [onresultUpdate, hseg, ht]
  · intro ht
    simp [onresultUpdate, hseg, ht]

/-- C4 witness: the spec scenario with script Intro. and finalized
segment hello world. -/
theorem dictation_final_append_witness :
    jsTrim "Intro." ≠ "" ∧
    onresultUpdate "hello world" "Intro." = "Intro." ++ " " ++ "hello world" :=
  ⟨by decide,
   (dictation_final_append "Intro." "hello world" (by decide)).1 (by decide) (by decide)⟩

/-- C6: with empty trimmed script text the generate control is
disabled, so a click of it changes nothing and performs no external
call; in particular, an Idle state stays Idle and no synthesis call is
issued. -/
theorem empty_script_generate_noop (s : AppState) (o : GenOutcome)
    (htrim : jsTrim s.text = "") (_hp : s.status.isPlaying = false) :
    generateClick o s = (s, []) := by
  simp [generateClick, htrim]

/-- C6 witness: a whitespace-only script in the mount state. -/
theorem empty_script_generate_noop_witness :
    jsTrim ({ initialState true with text := "   " } : AppState).text = "" ∧
    generateClick (.synthErr none) { initialState true with text := "   " } =
      ({ initialState true with text := "   " }, []) :=
  ⟨by decide, empty_script_generate_noop _ _ (by decide) rfl⟩

/-- C2 counterexample: an error whose message is the empty string does
not contain 500, yet the recorded user-facing error is the generic
fallback, not the empty message verbatim. -/
theorem generation_error_empty_message_cex :
    jsIncludes "" "500" = false ∧
    (handleGenerateAndPlay (.synthErr (some "")) (initialState true)).1.status.error =
      some genericGenMsg ∧
    (handleGenerateAndPlay (.synthErr (some "")) (initialState true)).1.status.error ≠
      some "" := by
  refine ⟨by decide, rfl, ?_⟩
  intro h
  simp [handleGenerateAndPlay, initialState, dictationGate, runPipeline,
    speechGenError, jsIncludes, genericGenMsg] at h

/-- C2 (amended): every generation-phase error is recorded through the
mapping speechGenError; a message containing 500 maps to the fixed
friendly retry message, a non-empty message without 500 is recorded
verbatim, and an absent or empty message maps to the generic
fallback. -/
theorem generation_error_mapping (s : AppState) (msg : Option String)
    (hp : s.status.isPlaying = false) :
    (handleGenerateAndPlay (.synthErr msg) s).1.status.error = some (speechGenError msg) ∧
    (∀ m, jsIncludes m "500" = true → speechGenError (some m) = friendlyRetryMsg) ∧
    (∀ m, jsIncludes m "500" = false → m ≠ "" → speechGenError (some m) = m) ∧
    speechGenError none = genericGenMsg ∧
    speechGenError (some "") = genericGenMsg := by
  refine ⟨?_, ?_, ?_, rfl, rfl⟩
  · rw [handleGenerate_not_playing _ _ hp]
    simp [runPipeline]
  · intro m hm
    simp [speechGenError, hm]
  · intro m hm hne
    simp [speechGenError, hm, hne]

/-- C2 witness: a 500-class message maps to the friendly retry message
and an ordinary message is recorded verbatim. -/
theorem generation_error_mapping_witness :
    speechGenError (some "Rpc failed with status 500") = friendlyRetryMsg ∧
    speechGenError (some "quota exceeded") = "quota exceeded" :=
  ⟨(generation_error_mapping (initialState true) (some "x") rfl).2.1 _ (by decide),
   (generation_error_mapping (initialState true) (some "x") rfl).2.2.1 _ (by decide) (by decide)⟩

/-- C9 counterexample: a response whose inline data is present but
empty carries a payload in the sense of the claim, yet generateSpeech
raises the fixed no-audio-data error instead of returning the payload
unchanged. -/
theorem generateSpeech_empty_payload_cex :
    generateSpeech { inlineData := some "" } =
      .error "No audio data received from the model." ∧
    generateSpeech { inlineData := some "" } ≠ .ok "" := by
  exact ⟨rfl, by intro h; simp [generateSpeech] at h⟩

/-- C9 (amended): an absent or empty audio payload raises the fixed
no-audio-data error; a non-empty payload is returned unchanged. -/
theorem generateSpeech_payload (resp : GenResponse) :
    (resp.inlineData = none →
      generateSpeech resp = .error "No audio data received from the model.") ∧
    (resp.inlineData = some "" →
      generateSpeech resp = .error "No audio data received from the model.") ∧
    (∀ d, resp.inlineData = some d → d ≠ "" → generateSpeech resp = .ok d) := by
  refine ⟨?_, ?_, ?_⟩
  · intro h; simp [generateSpeech, h]
  · intro h; simp [generateSpeech, h]
  · intro d h hd; simp [generateSpeech, h, hd]

/-- C9 witness: a concrete non-empty payload comes back unchanged. -/
theorem generateSpeech_payload_witness :
    generateSpeech { inlineData := some "UEsD" } = .ok "UEsD" :=
  (generateSpeech_payload _).2.2 "UEsD" rfl (by decide)

/-- C10: when the synthesis call and the base64 decode succeed but a
later pipeline step fails, the WAV blob stored earlier in the same
activation is still set afterwards, while the state returns to Idle
with the mapped error recorded. -/
theorem blob_survives_late_failure (s : AppState) (base64 : String) (msg : Option String)
    (hp : s.status.isPlaying = false) :
    (handleGenerateAndPlay (.laterErr base64 msg) s).1.lastAudioBlob =
      some { sourceBase64 := base64, sampleRate := 24000 } ∧
    (handleGenerateAndPlay (.laterErr base64 msg) s).1.status.isPlaying = false ∧
    (handleGenerateAndPlay (.laterErr base64 msg) s).1.status.isGenerating = false ∧
    (handleGenerateAndPlay (.laterErr base64 msg) s).1.status.error =
      some (speechGenError msg) := by
  rw [handleGenerate_not_playing _ _ hp]
  simp [runPipeline]

/-- C10 witness: a concrete activation whose audio-buffer decode
fails after the blob was stored. -/
theorem blob_survives_late_failure_witness :
    (handleGenerateAndPlay (.laterErr "QUJD" (some "decode failed")) (initialState true)).1.lastAudioBlob =
      some { sourceBase64 := "QUJD", sampleRate := 24000 } ∧
    (handleGenerateAndPlay (.laterErr "QUJD" (some "decode failed")) (initialState true)).1.status.isPlaying = false :=
  ⟨(blob_survives_late_failure (initialState true) "QUJD" (some "decode failed") rfl).1,
   (blob_survives_late_failure (initialState true) "QUJD" (some "decode failed") rfl).2.1⟩

/-- Bucket average as the claim words it (the spec-side formula, to be
compared with the source loop vizUpdate): with stride floor of
bufferLength over 20, bucket i is the plain average of the four
snapshot values at indices i*stride through i*stride+3, an absent read
counting as 0. -/
def claimedBucketAverage (snapshot : List Nat) (i : Nat) : ℚ :=
  let stride := snapshot.length / 20
  (((snapshot.getD (i * stride) 0 : ℕ) : ℚ) +
   ((snapshot.getD (i * stride + 1) 0 : ℕ) : ℚ) +
   ((snapshot.getD (i * stride + 2) 0 : ℕ) : ℚ) +
   ((snapshot.getD (i * stride + 3) 0 : ℕ) : ℚ)) / 4

/-- C3: for every frequency snapshot, a visualizer tick publishes a
frame of exactly 16 entries, entry i is the average of the four
snapshot values at indices i*stride through i*stride+3 with absent
reads counting 0, and every entry is non-negative. -/
theorem vizUpdate_frame_spec (snapshot : List Nat) :
    (vizUpdate snapshot).length = 16 ∧
    vizUpdate snapshot = (List.range 16).map (claimedBucketAverage snapshot) ∧
    ∀ q ∈ vizUpdate snapshot, 0 ≤ q := by
  have hmap : vizUpdate snapshot = (List.range 16).map (claimedBucketAverage snapshot) := by
    unfold vizUpdate
    apply List.map_congr_left
    intro i _
    show ((List.range 4).foldl
        (fun sum j => sum + ((snapshot.getD (i * (snapshot.length / 20) + j) 0 : ℕ) : ℚ)) 0) / 4 =
      claimedBucketAverage snapshot i
    rw [show List.range 4 = [0, 1, 2, 3] from rfl]
    simp only [List.foldl]
    unfold claimedBucketAverage
    push_cast
    ring_nf
  refine ⟨by simp [vizUpdate], hmap, ?_⟩
  intro q hq
  rw [hmap] at hq
  simp only [List.mem_map] at hq
  obtain ⟨i, _, rfl⟩ := hq
  unfold claimedBucketAverage
  positivity

/-- C3 witness: the constant snapshot of forty values 5 has stride 2
and every published entry is the value 5, hence non-negative. -/
theorem vizUpdate_frame_spec_witness :
    (vizUpdate (List.replicate 40 5)).length = 16 ∧
    (5 : ℚ) ∈ vizUpdate (List.replicate 40 5) ∧ 0 ≤ (5 : ℚ) :=
  ⟨(vizUpdate_frame_spec (List.replicate 40 5)).1,
   by norm_num [vizUpdate, List.range_succ],
   (vizUpdate_frame_spec (List.replicate 40 5)).2.2 5 (by norm_num [vizUpdate, List.range_succ])⟩

/-- C1: in every reachable state with active playback, the generate
action only stops playback: isPlaying and isGenerating are false
afterwards, the source handle is released, and no synthesis call is
issued during the activation. -/
theorem generate_while_playing (s : AppState) (o : GenOutcome)
    (hr : Reachable s) (hp : s.status.isPlaying = true) :
    (handleGenerateAndPlay o s).1.status.isPlaying = false ∧
    (handleGenerateAndPlay o s).1.status.isGenerating = false ∧
    (handleGenerateAndPlay o s).1.sourceNode = none ∧
    CallEv.synthCall ∉ (handleGenerateAndPlay o s).2 := by
  have hgen : s.status.isGenerating = false := (inv_of_reachable hr).1 hp
  have hh : handleGenerateAndPlay o s = stopPlayback s := by
    simp [handleGenerateAndPlay, hp]
  rw [hh]
  refine ⟨by simp [stopPlayback], by simp [stopPlayback, hgen], by simp [stopPlayback], ?_⟩
  show CallEv.synthCall ∉ (stopPlayback s).2
  by_cases hsrc : s.sourceNode.isSome <;> simp [stopPlayback, hsrc]

/-- A reachable state in which playback is active: from the mount
state, edit the script to hi and click generate with a successful
pipeline outcome. -/
def playingDemo : AppState :=
  step (.generate (.success "QUJD" [])) (step (.editText "hi") (initialState true))

/-- C1 witness: the concrete playing state above. -/
theorem generate_while_playing_witness :
    playingDemo.status.isPlaying = true ∧
    (handleGenerateAndPlay (.synthErr none) playingDemo).1.status.isPlaying = false ∧
    (handleGenerateAndPlay (.synthErr none) playingDemo).1.status.isGenerating = false ∧
    CallEv.synthCall ∉ (handleGenerateAndPlay (.synthErr none) playingDemo).2 :=
  ⟨rfl,
   (generate_while_playing playingDemo (.synthErr none)
     (Reachable.step _ (Reachable.step _ (Reachable.init true))) rfl).1,
   (generate_while_playing playingDemo (.synthErr none)
     (Reachable.step _ (Reachable.step _ (Reachable.init true))) rfl).2.1,
   (generate_while_playing playingDemo (.synthErr none)
     (Reachable.step _ (Reachable.step _ (Reachable.init true))) rfl).2.2.2⟩

/-- C7: in every reachable state with a live dictation session, an
activation of the generate action that issues the synthesis call
issues the stop request to the dictation engine strictly before it:
the call trace starts with the dictation stop followed by the
synthesis call. -/
theorem generate_stops_dictation_first (s : AppState) (o : GenOutcome)
    (hr : Reachable s) (hl : s.isListening = true) :
    CallEv.synthCall ∈ (handleGenerateAndPlay o s).2 →
      ∃ t, (handleGenerateAndPlay o s).2 =
        CallEv.dictationStop :: CallEv.synthCall :: t := by
  intro hmem
  have hav : s.recognitionAvailable = true := (inv_of_reachable hr).2 hl
  cases hp : s.status.isPlaying with
  | true =>
      exfalso
      have hh : handleGenerateAndPlay o s = stopPlayback s := by
        simp [handleGenerateAndPlay, hp]
      rw [hh] at hmem
      by_cases hsrc : s.sourceNode.isSome <;> simp [stopPlayback, hsrc] at hmem
  | false =>
      rw [handleGenerate_not_playing o s hp, dictationGate_listening s hl hav]
      obtain ⟨t, ht⟩ := runPipeline_trace_head o s
      exact ⟨t, by simp [ht]⟩

/-- A reachable state with a live dictation session: from the mount
state with recognition available, toggle dictation with a successful
engine start. -/
def listeningDemo : AppState := step (.dictToggle true) (initialState true)

/-- C7 witness: the concrete listening state above; the activation
trace is exactly the dictation stop followed by the synthesis call. -/
theorem generate_stops_dictation_first_witness :
    listeningDemo.isListening = true ∧
    (handleGenerateAndPlay (.synthErr none) listeningDemo).2 =
      [CallEv.dictationStop, CallEv.synthCall] ∧
    ∃ t, (handleGenerateAndPlay (.synthErr none) listeningDemo).2 =
      CallEv.dictationStop :: CallEv.synthCall :: t :=
  ⟨rfl, rfl,
   generate_stops_dictation_first listeningDemo (.synthErr none)
     (Reachable.step _ (Reachable.init true)) rfl (by decide)⟩

end Lumina
